import Mathlib

set_option linter.unusedVariables false
set_option linter.dupNamespace false

/-!
Verification of the `render` package: a content-negotiation and
response-serialization helper for HTTP servers.  The embedding below follows
`render.go`: a process-wide registry mapping content-type strings to
renderers, a negotiating `Render` that scans the request's Accept header,
a JSON renderer, and a status-helper wrapper exposing per-status-code
convenience methods.
-/

namespace Render

mutual
/-- Go JSON-able values as used by this package: strings, integers, and
objects with ordered string-keyed fields (covering both the `map[string]`
payloads of the examples and the `Error{Message string}` struct). -/
inductive RValue : Type where
  | str : String → RValue
  | num : Int → RValue
  | obj : RFields → RValue
deriving DecidableEq

/-- The ordered field list of a JSON object. -/
inductive RFields : Type where
  | nil : RFields
  | cons : String → RValue → RFields → RFields
deriving DecidableEq
end

/-- The renderers that occur in the package: the stateless `JSON` renderer,
the `moduleRender` adapter that re-enters the package-level negotiating
`Render`, and opaque caller-supplied `Renderer` implementations, identified
by an index. -/
inductive Renderer : Type where
  | JSON : Renderer
  | moduleRender : Renderer
  | custom : Nat → Renderer
deriving DecidableEq

/-- Lookup in the registry map `register : map[string]Renderer`, embedded as
an association list (first binding for a key is its value). -/
def mapLookup : List (String × Renderer) → String → Option Renderer
  | [], _ => none
  | (k, v) :: rest, key => if k = key then some v else mapLookup rest key

/-- `register[contentType] = handler`: overwrite the binding if the key is
present, otherwise add it. -/
def mapInsert : List (String × Renderer) → String → Renderer → List (String × Renderer)
  | [], key, v => [(key, v)]
  | (k, v0) :: rest, key, v =>
    if k = key then (key, v) :: rest else (k, v0) :: mapInsert rest key v

/-- The package-level mutable state: the map `register` and the slice
`registeredContentType` (registration order, duplicates kept). -/
structure RegState : Type where
  register : List (String × Renderer)
  registeredContentType : List String
deriving DecidableEq

/-- `Register(contentType, handler)` from `render.go`: warns (Boolean
component of the result, standing for the `log.Printf` side effect) exactly
when a previous binding exists, overwrites the map binding, and appends the
content type to `registeredContentType`.  It returns no error. -/
def Register (st : RegState) (contentType : String) (handler : Renderer) :
    RegState × Bool :=
  (⟨mapInsert st.register contentType handler,
    st.registeredContentType ++ [contentType]⟩,
   (mapLookup st.register contentType).isSome)

/-- The empty pre-`init` state. -/
def emptyState : RegState := ⟨[], []⟩

/-- The state after `init()`: `Register("application/json", new(JSON))`
then `Register("*/*", new(JSON))`. -/
def initState : RegState :=
  (Register (Register emptyState "application/json" Renderer.JSON).1
    "*/*" Renderer.JSON).1

/-- Helper for `stringsSplit`, walking the characters and accumulating the
current segment. -/
def stringsSplitAux (sep : Char) : List Char → String → List String
  | [], acc => [acc]
  | c :: rest, acc =>
    if c = sep then acc :: stringsSplitAux sep rest ""
    else stringsSplitAux sep rest (acc.push c)

/-- Go's `strings.Split(s, sep)` for a single-character separator (the only
form the source uses): splits `s` around each occurrence of `sep`; the
result is never empty, and `strings.Split("", sep) = [""]`. -/
def stringsSplit (s : String) (sep : Char) : List String :=
  stringsSplitAux sep s.data ""

/-- `strings.Split(accept, ";")[0]`: an accept candidate stripped of its
parameters (`q=` values etc.).  `stringsSplit` never returns `[]`, matching
Go's `strings.Split` with a non-empty separator, so `headD ""` is the `[0]`
index. -/
def stripParams (accept : String) : String :=
  (stringsSplit accept ';').headD ""

/-- The `for _, accept := range strings.Split(accepts, ",")` loop of
`Render`: the first candidate whose parameter-stripped form is a registered
key selects its handler. -/
def acceptLookup (reg : List (String × Renderer)) : List String → Option Renderer
  | [] => none
  | accept :: rest =>
    match mapLookup reg (stripParams accept) with
    | some handler => some handler
    | none => acceptLookup reg rest

/-- A render dispatch: which renderer `Render` delegates to, with which
HTTP status and payload.  The negotiating `Render` returns exactly the
result of this delegated call, so the dispatch captures its outcome. -/
structure RenderCall : Type where
  renderer : Renderer
  httpStatus : Nat
  obj : RValue
deriving DecidableEq

/-- `http.StatusNotAcceptable` (Go `net/http`). -/
def StatusNotAcceptable : Nat := 406

/-- `mkerror(callDepth, msg)` from `render.go`: builds the `Error` struct,
whose JSON form is the single-field object `{"message": msg}`.  The
`callDepth` argument is ignored by the source as well. -/
def mkerror (callDepth : Nat) (msg : String) : RValue :=
  RValue.obj (RFields.cons "message" (RValue.str msg) RFields.nil)

/-- The negotiating `Render(w, r, httpStatus, obj)` of `render.go`,
with the registry state and the request's Accept header value passed
explicitly: split the header on `,`, strip each candidate at `;`, dispatch
to the first registered handler; otherwise delegate to `DefaultJSON` with
status 406 and the "Accept header must be set to one of" error payload
(the message is `fmt.Sprint` of two strings, hence their concatenation). -/
def Render (st : RegState) (accepts : String) (httpStatus : Nat) (obj : RValue) :
    RenderCall :=
  match acceptLookup st.register (stringsSplit accepts ',') with
  | some handler => ⟨handler, httpStatus, obj⟩
  | none =>
    ⟨Renderer.JSON, StatusNotAcceptable,
     mkerror 1 ("Accept header must be set to one of " ++
       String.intercalate "," st.registeredContentType)⟩

/-- A JSON string-character escape, as Go's `encoding/json` encoder
performs it with its default HTML escaping: quote, backslash, newline,
carriage return and tab get two-character escapes; `<`, `>`, `&` become
`\u00XX`; remaining control characters below 0x20 become `\u00XX`; every
other character is emitted as itself. -/
def escapeChar (c : Char) : String :=
  if c = '"' then "\\\""
  else if c = '\\' then "\\\\"
  else if c = '\n' then "\\n"
  else if c = '\r' then "\\r"
  else if c = '\t' then "\\t"
  else if c = '<' then "\\u003c"
  else if c = '>' then "\\u003e"
  else if c = '&' then "\\u0026"
  else if c.toNat < 32 then
    "\\u00" ++ String.singleton (Nat.digitChar (c.toNat / 16)) ++
      String.singleton (Nat.digitChar (c.toNat % 16))
  else String.singleton c

/-- Go's JSON encoding of a string value: double quotes around the escaped
characters. -/
def encodeString (s : String) : String :=
  "\"" ++ String.join (s.data.map escapeChar) ++ "\""

mutual
/-- Go's `encoding/json` encoding of an `RValue` (without the trailing
newline that `json.Encoder.Encode` appends afterwards). -/
def encodeValue : RValue → String
  | RValue.str s => encodeString s
  | RValue.num n => toString n
  | RValue.obj fs => "\x7b" ++ encodeFieldList fs ++ "\x7d"

/-- The comma-separated `"key":value` sequence inside an encoded object. -/
def encodeFieldList : RFields → String
  | RFields.nil => ""
  | RFields.cons k v RFields.nil => encodeString k ++ ":" ++ encodeValue v
  | RFields.cons k v fs => encodeString k ++ ":" ++ encodeValue v ++ "," ++ encodeFieldList fs
end

/-- An `http.ResponseWriter` as this package drives it: response headers,
the status code once `WriteHeader` ran, and the body bytes written so
far. -/
structure Response : Type where
  headers : List (String × String)
  status : Option Nat
  body : String
deriving DecidableEq

/-- `w.Header().Set(key, value)`: replaces any existing values for the
key. -/
def setHeader (headers : List (String × String)) (key value : String) :
    List (String × String) :=
  headers.filter (fun p => p.1 ≠ key) ++ [(key, value)]

/-- Reads a response header previously set with `setHeader`. -/
def getHeader (headers : List (String × String)) (key : String) : Option String :=
  match headers.filter (fun p => p.1 = key) with
  | [] => none
  | p :: _ => some p.2

/-- `(*JSON).Render(w, r, httpCode, obj)` from `render.go`, with the
`Date` header value (a formatted `time.Now()`) passed in as `date`:
sets `Content-Type` to `application/json;charset=utf-8`, sets `Date`,
writes the status code, then `json.NewEncoder(w).Encode(obj)` writes the
JSON encoding of `obj` followed by a newline.  Encoding an `RValue` cannot
fail, so the returned Go error is nil on this domain. -/
def JSON.Render (date : String) (w : Response) (httpCode : Nat) (obj : RValue) :
    Response :=
  { headers := setHeader (setHeader w.headers "Content-Type"
      "application/json;charset=utf-8") "Date" date,
    status := some httpCode,
    body := w.body ++ encodeValue obj ++ "\n" }

/-- Go `net/http` status constants used by the status helper, with their
values from the standard library. -/
def StatusOKCode : Nat := 200

/-- `http.StatusCreated`. -/
def StatusCreatedCode : Nat := 201

/-- `http.StatusAccepted`. -/
def StatusAcceptedCode : Nat := 202

/-- `http.StatusBadRequest`. -/
def StatusBadRequestCode : Nat := 400

/-- `http.StatusUnauthorized`. -/
def StatusUnauthorizedCode : Nat := 401

/-- `http.StatusForbidden`.  Its value in `net/http` is 403 (402 is
`http.StatusPaymentRequired`); the `// 402` comment in the source is
wrong. -/
def StatusForbiddenCode : Nat := 403

/-- `http.StatusNotFound`. -/
def StatusNotFoundCode : Nat := 404

/-- `http.StatusMethodNotAllowed`. -/
def StatusMethodNotAllowedCode : Nat := 405

/-- `http.StatusInternalServerError`. -/
def StatusInternalServerErrorCode : Nat := 500

/-- `http.StatusServiceUnavailable`.  Its value in `net/http` is 503 (501
is `http.StatusNotImplemented`); the `// 501` comment in the source is
wrong. -/
def StatusServiceUnavailableCode : Nat := 503

mutual
/-- Go's `fmt` default (`%v`) rendering of the values this package passes
as variadic arguments.  Strings print as themselves and integers in
decimal; an object stands for a `map[string]` value and prints in Go's
`map[k1:v1 k2:v2]` form with the fields in list order. -/
def goString : RValue → String
  | RValue.str s => s
  | RValue.num n => toString n
  | RValue.obj fs => "map[" ++ String.intercalate " " (goStringFields fs) ++ "]"

/-- The `k:v` entries of a map as `fmt` prints them. -/
def goStringFields : RFields → List String
  | RFields.nil => []
  | RFields.cons k v fs => (k ++ ":" ++ goString v) :: goStringFields fs
end

/-- `fmt.Sprint(args)` where `args` is the variadic `[]interface{}` slice:
a slice prints as its elements' default representations, space-joined,
inside square brackets. -/
def fmtSprintSlice (args : List RValue) : String :=
  "[" ++ String.intercalate " " (args.map goString) ++ "]"

/-- The `handlerHelper` struct: wraps exactly one `Renderer`. -/
structure handlerHelper : Type where
  r : Renderer
deriving DecidableEq

/-- The body of `(*handlerHelper).Render(w, r, httpStatus, obj)` as
written in the source is `return h.Render(w, r, httpStatus, obj)` — a call
to the very same method, not to `h.r.Render`.  Embedded with an explicit
`fuel` bound on the call stack: each unfolding performs the self-call with
one unit less, and exhausting the fuel (`none`) means the call never
returns a dispatch. -/
def handlerHelper.RenderFuel (h : handlerHelper) (fuel : Nat)
    (httpStatus : Nat) (obj : RValue) : Option RenderCall :=
  match fuel with
  | 0 => none
  | Nat.succ fuel => handlerHelper.RenderFuel h fuel httpStatus obj

/-- `(*handlerHelper).StatusOK`: delegates to the wrapped renderer with
`http.StatusOK`. -/
def handlerHelper.StatusOK (h : handlerHelper) (obj : RValue) : RenderCall :=
  ⟨h.r, StatusOKCode, obj⟩

/-- `(*handlerHelper).StatusCreated`. -/
def handlerHelper.StatusCreated (h : handlerHelper) (obj : RValue) : RenderCall :=
  ⟨h.r, StatusCreatedCode, obj⟩

/-- `(*handlerHelper).StatusAccepted`. -/
def handlerHelper.StatusAccepted (h : handlerHelper) (obj : RValue) : RenderCall :=
  ⟨h.r, StatusAcceptedCode, obj⟩

/-- `(*handlerHelper).StatusBadRequest`: wraps the variadic arguments via
`mkerror(1, fmt.Sprint(args))` and delegates with `http.StatusBadRequest`. -/
def handlerHelper.StatusBadRequest (h : handlerHelper) (args : List RValue) :
    RenderCall :=
  ⟨h.r, StatusBadRequestCode, mkerror 1 (fmtSprintSlice args)⟩

/-- `(*handlerHelper).StatusUnauthorized`. -/
def handlerHelper.StatusUnauthorized (h : handlerHelper) (args : List RValue) :
    RenderCall :=
  ⟨h.r, StatusUnauthorizedCode, mkerror 1 (fmtSprintSlice args)⟩

/-- `(*handlerHelper).StatusForbidden`: the source passes
`http.StatusForbidden`, i.e. 403. -/
def handlerHelper.StatusForbidden (h : handlerHelper) (args : List RValue) :
    RenderCall :=
  ⟨h.r, StatusForbiddenCode, mkerror 1 (fmtSprintSlice args)⟩

/-- `(*handlerHelper).StatusMethodNotAllowed`. -/
def handlerHelper.StatusMethodNotAllowed (h : handlerHelper) (args : List RValue) :
    RenderCall :=
  ⟨h.r, StatusMethodNotAllowedCode, mkerror 1 (fmtSprintSlice args)⟩

/-- `(*handlerHelper).StatusNotFound`. -/
def handlerHelper.StatusNotFound (h : handlerHelper) (args : List RValue) :
    RenderCall :=
  ⟨h.r, StatusNotFoundCode, mkerror 1 (fmtSprintSlice args)⟩

/-- `(*handlerHelper).InternalServerError`. -/
def handlerHelper.InternalServerError (h : handlerHelper) (args : List RValue) :
    RenderCall :=
  ⟨h.r, StatusInternalServerErrorCode, mkerror 1 (fmtSprintSlice args)⟩

/-- `(*handlerHelper).ServiceUnavailable`: the source passes
`http.StatusServiceUnavailable`, i.e. 503. -/
def handlerHelper.ServiceUnavailable (h : handlerHelper) (args : List RValue) :
    RenderCall :=
  ⟨h.r, StatusServiceUnavailableCode, mkerror 1 (fmtSprintSlice args)⟩

/-- `(*moduleRender).Render`: forwards to the package-level negotiating
`Render`. -/
def moduleRender.Render (st : RegState) (accepts : String) (httpStatus : Nat)
    (obj : RValue) : RenderCall :=
  Render.Render st accepts httpStatus obj

/-- `var DefaultStatusRenderer = handlerHelper{&moduleRender{}}`. -/
def DefaultStatusRenderer : handlerHelper := ⟨Renderer.moduleRender⟩

/-- The package-level `StatusOK(w, r, obj)`: forwards to
`DefaultStatusRenderer.StatusOK`. -/
def StatusOK (obj : RValue) : RenderCall :=
  DefaultStatusRenderer.StatusOK obj

/-- The payload `{"id": 7}` of the spec's worked example. -/
def idPayload : RValue := RValue.obj (RFields.cons "id" (RValue.num 7) RFields.nil)

/-- The registry states reachable by the package: the `init()` state
followed by any sequence of `Register` calls. -/
inductive Reachable : RegState → Prop where
  | fromInit : Reachable initState
  | fromRegister : ∀ (st : RegState) (contentType : String) (handler : Renderer),
      Reachable st → Reachable (Register st contentType handler).1

/-! ## Helper lemmas -/

/-- Candidates that all miss the registry do not affect the scan. -/
theorem acceptLookup_append_none (reg : List (String × Renderer))
    (pre rest : List String)
    (h : ∀ c ∈ pre, mapLookup reg (stripParams c) = none) :
    acceptLookup reg (pre ++ rest) = acceptLookup reg rest := by
  induction pre with
  | nil => rfl
  | cons a l ih =>
    have ha := h a (List.mem_cons_self a l)
    have hl := ih (fun c hc => h c (List.mem_cons_of_mem a hc))
    simp [acceptLookup, ha, hl]

/-- If every candidate misses the registry, the scan yields nothing. -/
theorem acceptLookup_eq_none (reg : List (String × Renderer)) (l : List String)
    (h : ∀ c ∈ l, mapLookup reg (stripParams c) = none) :
    acceptLookup reg l = none := by
  induction l with
  | nil => rfl
  | cons a rest ih =>
    have ha := h a (List.mem_cons_self a rest)
    have hr := ih (fun c hc => h c (List.mem_cons_of_mem a hc))
    simp [acceptLookup, ha, hr]

/-- When no Accept candidate matches, `Render` delegates to the JSON
renderer with status 406 and the "must be set to one of" message. -/
theorem render_406_of_no_match (st : RegState) (accepts : String)
    (httpStatus : Nat) (obj : RValue)
    (h : ∀ c ∈ stringsSplit accepts ',',
      mapLookup st.register (stripParams c) = none) :
    Render.Render st accepts httpStatus obj =
      ⟨Renderer.JSON, 406,
       mkerror 1 ("Accept header must be set to one of " ++
         String.intercalate "," st.registeredContentType)⟩ := by
  have h1 := acceptLookup_eq_none st.register _ h
  simp [Render.Render, h1, StatusNotAcceptable]

/-- Lookup after insertion: the inserted key maps to the new value, other
keys are unaffected. -/
theorem mapLookup_mapInsert (m : List (String × Renderer)) (k : String)
    (v : Renderer) (key : String) :
    mapLookup (mapInsert m k v) key =
      if key = k then some v else mapLookup m key := by
  induction m with
  | nil =>
    by_cases hk : key = k
    · simp [mapInsert, mapLookup, hk]
    · simp [mapInsert, mapLookup, hk, Ne.symm hk]
  | cons p rest ih =>
    obtain ⟨a, b⟩ := p
    by_cases hak : a = k
    · subst hak
      by_cases hk : key = a
      · simp [mapInsert, mapLookup, hk]
      · simp [mapInsert, mapLookup, hk, Ne.symm hk]
    · by_cases hka : a = key
      · subst hka
        simp [mapInsert, mapLookup, hak, Ne.symm hak]
      · simp [mapInsert, mapLookup, hak, hka, ih]

/-- `Register` preserves "every registered key occurs in the order
list". -/
theorem keysInOrder_step (st : RegState)
    (ih : ∀ ct, (mapLookup st.register ct).isSome = true →
      ct ∈ st.registeredContentType)
    (c : String) (r : Renderer) :
    ∀ ct, (mapLookup (Register st c r).1.register ct).isSome = true →
      ct ∈ (Register st c r).1.registeredContentType := by
  intro ct h
  simp only [Register] at h ⊢
  rw [mapLookup_mapInsert] at h
  by_cases hc : ct = c
  · simp [hc]
  · rw [if_neg hc] at h
    exact List.mem_append_left _ (ih ct h)

/-! ## Claims -/

/-- C1: the negotiating `Render` splits the Accept header on `,` in header
order, strips each candidate at the first `;`, and dispatches to the
renderer registered under the first candidate that hits the registry,
passing the status and payload unchanged and returning that renderer's
call as its result. -/
theorem render_dispatches_first_match
    (st : RegState) (accepts : String) (httpStatus : Nat) (obj : RValue)
    (pre : List String) (c : String) (post : List String) (handler : Renderer)
    (hsplit : stringsSplit accepts ',' = pre ++ c :: post)
    (hpre : ∀ x ∈ pre, mapLookup st.register (stripParams x) = none)
    (hc : mapLookup st.register (stripParams c) = some handler) :
    Render.Render st accepts httpStatus obj = ⟨handler, httpStatus, obj⟩ := by
  have h1 : acceptLookup st.register (stringsSplit accepts ',') = some handler := by
    rw [hsplit, acceptLookup_append_none st.register pre (c :: post) hpre]
    simp [acceptLookup, hc]
  simp [Render.Render, h1]

/-- Witness for C1 at the spec's example: `Accept: application/json;q=0.9`
dispatches to the renderer registered under `application/json`. -/
theorem render_dispatches_first_match_app_json :
    Render.Render initState "application/json;q=0.9" 200 (RValue.str "ok") =
      ⟨Renderer.JSON, 200, RValue.str "ok"⟩ ∧
    mapLookup initState.register "application/json" = some Renderer.JSON :=
  ⟨render_dispatches_first_match initState "application/json;q=0.9" 200
      (RValue.str "ok") [] "application/json;q=0.9" [] Renderer.JSON
      (by decide) (by intro x hx; exact absurd hx (List.not_mem_nil x))
      (by decide),
   by decide⟩

/-- C2: when no Accept candidate matches a registered content type,
`Render` does not surface a negotiation error: it delegates to the default
JSON renderer with status 406 and an `Error` payload whose message is
"Accept header must be set to one of " followed by the comma-joined
registration-order list (duplicates included), and returns that render's
result. -/
theorem render_unmatched_accept_406
    (st : RegState) (accepts : String) (httpStatus : Nat) (obj : RValue)
    (h : ∀ c ∈ stringsSplit accepts ',',
      mapLookup st.register (stripParams c) = none) :
    Render.Render st accepts httpStatus obj =
      ⟨Renderer.JSON, 406,
       RValue.obj (RFields.cons "message"
         (RValue.str ("Accept header must be set to one of " ++
           String.intercalate "," st.registeredContentType)) RFields.nil)⟩ :=
  render_406_of_no_match st accepts httpStatus obj h

/-- Witness for C2: `Accept: text/unknown-xyz` against the `init()`
registry produces the 406 dispatch with the concrete message. -/
theorem render_unmatched_accept_406_concrete :
    Render.Render initState "text/unknown-xyz" 200 (RValue.str "v") =
      ⟨Renderer.JSON, 406,
       mkerror 1 "Accept header must be set to one of application/json,*/*"⟩ :=
  (render_unmatched_accept_406 initState "text/unknown-xyz" 200
    (RValue.str "v") (by decide)).trans (by decide)

/-- C3 (code bug): the source of `(*handlerHelper).Render` is
`return h.Render(w, r, httpStatus, obj)` — it calls itself, not the
wrapped `h.r.Render`; however much call-stack fuel it is given, the call
recurses without ever producing a dispatch. -/
theorem handlerHelper_render_self_recursion_diverges
    (h : handlerHelper) (fuel httpStatus : Nat) (obj : RValue) :
    handlerHelper.RenderFuel h fuel httpStatus obj = none := by
  induction fuel with
  | zero => rfl
  | succ n ih => simpa [handlerHelper.RenderFuel] using ih

/-- C4: `Register` cannot fail: it warns exactly when a binding already
existed, binds the key to the new renderer (last write wins), and appends
the content type to the order list, so a double registration leaves the
second renderer bound and the content type counted twice. -/
theorem register_last_write_wins
    (st : RegState) (contentType : String) (r1 r2 : Renderer) :
    (Register st contentType r1).2 = (mapLookup st.register contentType).isSome ∧
    mapLookup (Register st contentType r1).1.register contentType = some r1 ∧
    (Register st contentType r1).1.registeredContentType =
      st.registeredContentType ++ [contentType] ∧
    mapLookup (Register (Register st contentType r1).1 contentType r2).1.register
      contentType = some r2 ∧
    (Register (Register st contentType r1).1 contentType r2).2 = true ∧
    ((Register (Register st contentType r1).1 contentType
        r2).1.registeredContentType).count contentType =
      (st.registeredContentType).count contentType + 2 := by
  refine ⟨rfl, ?_, rfl, ?_, ?_, ?_⟩
  · rw [show (Register st contentType r1).1.register =
        mapInsert st.register contentType r1 from rfl]
    simp [mapLookup_mapInsert]
  · simp [Register, mapLookup_mapInsert]
  · simp [Register, mapLookup_mapInsert]
  · simp [Register, List.count_append]

/-- Counterexample for C5: the source passes `http.StatusForbidden` and
`http.StatusServiceUnavailable`, whose `net/http` values are 403 and 503 —
not the 402 and 501 claimed (the `// 402` and `// 501` comments in the
source are wrong). -/
theorem forbidden_service_unavailable_codes_cex :
    (handlerHelper.StatusForbidden ⟨Renderer.JSON⟩ []).httpStatus = 403 ∧
    ¬ (handlerHelper.StatusForbidden ⟨Renderer.JSON⟩ []).httpStatus = 402 ∧
    (handlerHelper.ServiceUnavailable ⟨Renderer.JSON⟩ []).httpStatus = 503 ∧
    ¬ (handlerHelper.ServiceUnavailable ⟨Renderer.JSON⟩ []).httpStatus = 501 := by
  decide

/-- C5 (amended): each status-helper method delegates to the wrapped
renderer with the `net/http` value of the constant the source names:
OK 200, Created 201, Accepted 202, BadRequest 400, Unauthorized 401,
Forbidden 403, NotFound 404, MethodNotAllowed 405, InternalServerError
500, ServiceUnavailable 503. -/
theorem helper_status_codes_actual (h : handlerHelper) (obj : RValue)
    (args : List RValue) :
    (h.StatusOK obj).httpStatus = 200 ∧ (h.StatusOK obj).renderer = h.r ∧
    (h.StatusCreated obj).httpStatus = 201 ∧ (h.StatusCreated obj).renderer = h.r ∧
    (h.StatusAccepted obj).httpStatus = 202 ∧ (h.StatusAccepted obj).renderer = h.r ∧
    (h.StatusBadRequest args).httpStatus = 400 ∧
    (h.StatusBadRequest args).renderer = h.r ∧
    (h.StatusUnauthorized args).httpStatus = 401 ∧
    (h.StatusUnauthorized args).renderer = h.r ∧
    (h.StatusForbidden args).httpStatus = 403 ∧
    (h.StatusForbidden args).renderer = h.r ∧
    (h.StatusNotFound args).httpStatus = 404 ∧
    (h.StatusNotFound args).renderer = h.r ∧
    (h.StatusMethodNotAllowed args).httpStatus = 405 ∧
    (h.StatusMethodNotAllowed args).renderer = h.r ∧
    (h.InternalServerError args).httpStatus = 500 ∧
    (h.InternalServerError args).renderer = h.r ∧
    (h.ServiceUnavailable args).httpStatus = 503 ∧
    (h.ServiceUnavailable args).renderer = h.r :=
  ⟨rfl, rfl, rfl, rfl, rfl, rfl, rfl, rfl, rfl, rfl,
   rfl, rfl, rfl, rfl, rfl, rfl, rfl, rfl, rfl, rfl⟩

/-- C6: every 4xx/5xx helper wraps its variadic arguments into one `Error`
payload whose message is `fmt.Sprint` of the argument slice — the
bracket-wrapped, space-joined default representations — and delegates it
to the wrapped renderer; in particular `StatusBadRequest` with arguments
"missing", "field", "x" dispatches status 400 with message
"[missing field x]". -/
theorem helper_error_payload_sprint (h : handlerHelper) (args : List RValue) :
    h.StatusBadRequest args =
      ⟨h.r, 400, mkerror 1 ("[" ++ String.intercalate " " (args.map goString) ++ "]")⟩ ∧
    h.StatusUnauthorized args =
      ⟨h.r, 401, mkerror 1 ("[" ++ String.intercalate " " (args.map goString) ++ "]")⟩ ∧
    h.StatusForbidden args =
      ⟨h.r, 403, mkerror 1 ("[" ++ String.intercalate " " (args.map goString) ++ "]")⟩ ∧
    h.StatusNotFound args =
      ⟨h.r, 404, mkerror 1 ("[" ++ String.intercalate " " (args.map goString) ++ "]")⟩ ∧
    h.StatusMethodNotAllowed args =
      ⟨h.r, 405, mkerror 1 ("[" ++ String.intercalate " " (args.map goString) ++ "]")⟩ ∧
    h.InternalServerError args =
      ⟨h.r, 500, mkerror 1 ("[" ++ String.intercalate " " (args.map goString) ++ "]")⟩ ∧
    h.ServiceUnavailable args =
      ⟨h.r, 503, mkerror 1 ("[" ++ String.intercalate " " (args.map goString) ++ "]")⟩ ∧
    handlerHelper.StatusBadRequest ⟨Renderer.JSON⟩
        [RValue.str "missing", RValue.str "field", RValue.str "x"] =
      ⟨Renderer.JSON, 400, mkerror 1 "[missing field x]"⟩ :=
  ⟨rfl, rfl, rfl, rfl, rfl, rfl, rfl, by decide⟩

/-- Counterexample for C7: the body `json.Encoder.Encode` writes is the
JSON encoding of the payload followed by a newline, not the bare encoding
with no additional bytes. -/
theorem json_render_body_newline_cex :
    (JSON.Render "D" ⟨[], none, ""⟩ 201 idPayload).body = "\x7b\"id\":7\x7d\n" ∧
    ¬ (JSON.Render "D" ⟨[], none, ""⟩ 201 idPayload).body = "\x7b\"id\":7\x7d" := by
  decide

/-- C7 (amended): with `Accept: application/json` the negotiating `Render`
dispatches the status-201 call to the JSON renderer unchanged, and the
JSON renderer on a fresh response sets status 201, Content-Type
`application/json;charset=utf-8`, and writes as the body the JSON encoding
`{"id":7}` of the payload followed by a single newline (appended by
`json.Encoder.Encode`). -/
theorem json_render_201_full (date : String) :
    Render.Render initState "application/json" 201 idPayload =
      ⟨Renderer.JSON, 201, idPayload⟩ ∧
    (JSON.Render date ⟨[], none, ""⟩ 201 idPayload).status = some 201 ∧
    getHeader (JSON.Render date ⟨[], none, ""⟩ 201 idPayload).headers
      "Content-Type" = some "application/json;charset=utf-8" ∧
    (JSON.Render date ⟨[], none, ""⟩ 201 idPayload).body = "\x7b\"id\":7\x7d" ++ "\n" := by
  refine ⟨by decide, rfl, ?_, rfl⟩
  simp [JSON.Render, setHeader, getHeader]

/-- C8: splitting the empty Accept header yields exactly one empty-string
candidate, and when the empty string is not a registered content type the
negotiating `Render` takes the 406 no-match path. -/
theorem empty_accept_single_candidate_406
    (st : RegState) (httpStatus : Nat) (obj : RValue)
    (h : mapLookup st.register "" = none) :
    stringsSplit "" ',' = [""] ∧
    Render.Render st "" httpStatus obj =
      ⟨Renderer.JSON, 406,
       mkerror 1 ("Accept header must be set to one of " ++
         String.intercalate "," st.registeredContentType)⟩ := by
  refine ⟨rfl, ?_⟩
  refine render_406_of_no_match st "" httpStatus obj ?_
  intro c hc
  have : c = "" := by
    have h1 : stringsSplit "" ',' = [""] := rfl
    rw [h1] at hc
    simpa using hc
  rw [this]
  exact h

/-- Witness for C8 at the `init()` registry, where the empty string is not
registered. -/
theorem empty_accept_single_candidate_406_init :
    stringsSplit "" ',' = [""] ∧
    Render.Render initState "" 200 (RValue.str "v") =
      ⟨Renderer.JSON, 406,
       mkerror 1 ("Accept header must be set to one of " ++
         String.intercalate "," initState.registeredContentType)⟩ :=
  empty_accept_single_candidate_406 initState 200 (RValue.str "v") (by decide)

/-- C9: in every state reachable from `init()` by `Register` calls, every
key bound in the registry map occurs in the registration-order list, so
the 406 message mentions every content type that can match. -/
theorem registry_keys_subset_order (st : RegState) (hst : Reachable st) :
    ∀ ct : String, (mapLookup st.register ct).isSome = true →
      ct ∈ st.registeredContentType := by
  induction hst with
  | fromInit =>
    have h0 : ∀ ct, (mapLookup emptyState.register ct).isSome = true →
        ct ∈ emptyState.registeredContentType := by
      intro ct h
      simp [emptyState, mapLookup] at h
    unfold initState
    exact keysInOrder_step _
      (keysInOrder_step _ h0 "application/json" Renderer.JSON) "*/*" Renderer.JSON
  | fromRegister st c r _ ih => exact keysInOrder_step st ih c r

/-- Witness for C9: both startup bindings occur in the order list. -/
theorem registry_keys_subset_order_init :
    "application/json" ∈ initState.registeredContentType ∧
    "*/*" ∈ initState.registeredContentType :=
  ⟨registry_keys_subset_order initState Reachable.fromInit
      "application/json" (by decide),
   registry_keys_subset_order initState Reachable.fromInit
      "*/*" (by decide)⟩

/-- C10: the package-level `StatusOK` routes through content negotiation:
it dispatches to the `moduleRender` adapter with status 200, and when no
Accept candidate matches a registered content type that adapter's render
is the 406 not-acceptable JSON dispatch carrying the error payload, not a
200 carrying the object. -/
theorem statusOK_routes_through_negotiation
    (st : RegState) (accepts : String) (obj : RValue)
    (h : ∀ c ∈ stringsSplit accepts ',',
      mapLookup st.register (stripParams c) = none) :
    (StatusOK obj).renderer = Renderer.moduleRender ∧
    (StatusOK obj).httpStatus = 200 ∧
    (StatusOK obj).obj = obj ∧
    moduleRender.Render st accepts (StatusOK obj).httpStatus (StatusOK obj).obj =
      ⟨Renderer.JSON, 406,
       mkerror 1 ("Accept header must be set to one of " ++
         String.intercalate "," st.registeredContentType)⟩ :=
  ⟨rfl, rfl, rfl, render_406_of_no_match st accepts 200 obj h⟩

/-- Witness for C10: with `Accept: text/unknown-xyz` and the `init()`
registry, the package-level `StatusOK` path produces the 406 dispatch. -/
theorem statusOK_routes_through_negotiation_concrete :
    (StatusOK (RValue.str "hello")).renderer = Renderer.moduleRender ∧
    (StatusOK (RValue.str "hello")).httpStatus = 200 ∧
    (StatusOK (RValue.str "hello")).obj = RValue.str "hello" ∧
    moduleRender.Render initState "text/unknown-xyz"
        (StatusOK (RValue.str "hello")).httpStatus
        (StatusOK (RValue.str "hello")).obj =
      ⟨Renderer.JSON, 406,
       mkerror 1 ("Accept header must be set to one of " ++
         String.intercalate "," initState.registeredContentType)⟩ :=
  statusOK_routes_through_negotiation initState "text/unknown-xyz"
    (RValue.str "hello") (by decide)

end Render
